import Mathlib

/-!
# starx: network entities (acceptor.go, agent.go)

A shallow embedding of the two network entities of package starx:

* acceptor (the bridge entity of a backend node, acceptor.go), with its three
  tables sessionMap, f2bMap and b2fMap;
* agent (the direct entity of a frontend node, agent.go).

Conventions of the embedding.

* Go maps with int64 keys are association lists with unique keys (AList);
  lookup is the comma-ok read, insert is the assignment m[k] = v.
* int64 values are integers; the source does no arithmetic on them, only the
  comparison bsid > 0, so no wrap-around can occur.
* A pointer to a session is an optional session value (nil is none).
* The collaborators that live outside the two files (route decoder, gob
  codec, cluster transport, payload serializer, connection registry, protocol
  writer, the socket) are fields of the record Env; every invocation of one of
  them is recorded, in program order, in a list of events.
* The id that session.NewSession gives a new session and the value of
  time.Now().Unix() are arguments of the operation that asks for them.
* The order of a range loop over a map is an input of the loop (RangeOrder):
  any arrangement of the values, chosen anew for every loop.
* Log statements are left out.
-/

namespace Starx

/-- Byte slices. -/
abbrev Bytes := List Nat

/-- The physical connection (net.Conn), identified by a descriptor number. -/
structure Conn where
  fd : Nat
deriving DecidableEq, Repr

/-- Values of type error: the two package-level errors of agent.go and the
errors that collaborators produce. -/
inductive Error where
  | ErrRPCLocal
  | ErrSidNotExists
  | other (msg : String)
deriving DecidableEq, Repr

/-- The type networkStatus with the two values the files use. -/
inductive networkStatus where
  | statusStart
  | statusClosed
deriving DecidableEq, Repr

/-- Values passed as interface{}: payloads, call arguments, reply targets. -/
inductive Value where
  | raw (b : Bytes)
  | str (s : String)
  | int (i : Int)
deriving DecidableEq, Repr

/-- The fields of session.Session that the two files read: ID, Uid, and the
owning entity, kept as the id that Entity.ID() returns. -/
structure Session where
  ID : Int
  Uid : Int
  entityID : Int
deriving DecidableEq, Repr

/-- A decoded route: routelib.Decode yields a value with a ServerType. -/
structure Route where
  ServerType : String
  Service : String
  Method : String
deriving DecidableEq, Repr

/-- The kind of a cluster call; Call uses rpc.User. -/
inductive RpcKind where
  | Sys
  | User
deriving DecidableEq, Repr

/-- The kind of an outbound message. -/
inductive HandlerKind where
  | HandlerPush
  | HandlerResponse
deriving DecidableEq, Repr

/-- The message rpc.Response handed to rpc.WriteResponse. A field left out of
the composite literal has its zero value: Route is the empty string. -/
structure Response where
  Route : String
  Kind : HandlerKind
  Data : Bytes
  Sid : Int
deriving DecidableEq, Repr

/-- The struct acceptor of acceptor.go. -/
structure acceptor where
  id : Int
  socket : Conn
  status : networkStatus
  sessionMap : AList (fun _ : Int => Session)
  f2bMap : AList (fun _ : Int => Int)
  b2fMap : AList (fun _ : Int => Int)
  lastTime : Int
deriving DecidableEq

/-- The struct agent of agent.go. -/
structure agent where
  id : Int
  socket : Conn
  status : networkStatus
  session : Session
  lastTime : Int
deriving DecidableEq, Repr

/-- A go function result of the shape (value, error). -/
inductive Res (α : Type) where
  | ok (v : α)
  | err (e : Error)
deriving DecidableEq, Repr

/-- The collaborators the two files call. -/
structure Env where
  /-- The value of App.Config.Type. -/
  configType : String
  /-- The function routelib.Decode. -/
  routeDecode : String → Res Route
  /-- The function gobEncode applied to the variadic arguments. -/
  gobEncode : List Value → Res Bytes
  /-- The function cluster.Call. -/
  clusterCall : RpcKind → Route → Session → Bytes → Res Bytes
  /-- The function gobDecode(reply, ret): the error it returns. -/
  gobDecode : Value → Bytes → Option Error
  /-- The function serializeOrRaw. -/
  serializeOrRaw : Value → Res Bytes
  /-- The registry lookup defaultNetService.acceptor(id). -/
  registryAcceptor : Int → Res acceptor
  /-- The function rpc.WriteResponse: the error it returns. -/
  writeResponse : Conn → Response → Option Error
  /-- The method Write of the socket: the error it returns. -/
  socketWrite : Conn → Bytes → Option Error
  /-- The method Close of the socket: the error it returns. -/
  socketClose : Conn → Option Error

/-- One invocation of a collaborator. -/
inductive Event where
  | newSession (entityID : Int) (id : Int)
  | closeSession (s : Session)
  | removeAcceptor (id : Int)
  | socketClose (c : Conn)
  | socketWrite (c : Conn) (data : Bytes)
  | serializeOrRaw (v : Value)
  | registryAcceptor (id : Int)
  | writeResponse (c : Conn) (resp : Response)
  | routeDecode (route : String)
  | gobEncode (args : List Value)
  | clusterCall (kind : RpcKind) (r : Route) (s : Session) (data : Bytes)
  | gobDecode (reply : Value) (ret : Bytes)
deriving DecidableEq, Repr

/-- The outcome of a method: the receiver afterwards, the returned value and
the collaborator invocations made, in order. -/
structure Out (σ : Type) (ρ : Type) where
  state : σ
  ret : ρ
  trace : List Event

/-- The function newAcceptor; now is the value of time.Now().Unix(). -/
def newAcceptor (id : Int) (conn : Conn) (now : Int) : acceptor :=
  { id := id
    socket := conn
    status := networkStatus.statusStart
    sessionMap := ∅
    f2bMap := ∅
    b2fMap := ∅
    lastTime := now }

/-- The call session.NewSession(a) with a an acceptor: a session owned by
the entity, with the id the session subsystem hands out. -/
def NewSession (entityID : Int) (newID : Int) : Session :=
  { ID := newID, Uid := 0, entityID := entityID }

/-- The method acceptor.heartbeat. -/
def acceptor.heartbeat (a : acceptor) (now : Int) : acceptor :=
  { a with lastTime := now }

/-- The method acceptor.Session. The argument newID is the id of the session
that session.NewSession creates when the method reaches that line. -/
def acceptor.Session (a : acceptor) (sid : Int) (newID : Int) :
    Out acceptor (Option Session) :=
  match a.f2bMap.lookup sid with
  | some bsid =>
    if bsid > 0 then
      { state := a, ret := a.sessionMap.lookup bsid, trace := [] }
    else
      let s := NewSession a.id newID
      { state := { a with
                     sessionMap := a.sessionMap.insert s.ID s
                     f2bMap := a.f2bMap.insert sid s.ID
                     b2fMap := a.b2fMap.insert s.ID sid }
        ret := some s
        trace := [Event.newSession a.id newID] }
  | none =>
    let s := NewSession a.id newID
    { state := { a with
                   sessionMap := a.sessionMap.insert s.ID s
                   f2bMap := a.f2bMap.insert sid s.ID
                   b2fMap := a.b2fMap.insert s.ID sid }
      ret := some s
      trace := [Event.newSession a.id newID] }

/-- The sessions held in sessionMap, one per entry, in the order of the
entries of the association list. This is the content of the table, not the
order in which a range loop visits it. -/
def acceptor.sessions (a : acceptor) : List Starx.Session :=
  a.sessionMap.entries.map (fun e => e.2)

/-- The order in which one range loop over a map visits the values: Go
leaves it open and picks it anew for every loop, so it is an input of each
loop. visit rearranges the values of the table; perm says that it visits
every value once. -/
structure RangeOrder where
  visit : List Session → List Session
  perm : ∀ l, (visit l).Perm l

/-- The range order opposite to the entries of the association list. -/
def RangeOrder.reversed : RangeOrder :=
  { visit := fun l => l.reverse
    perm := fun l => List.reverse_perm l }

/-- The method acceptor.close. The range loop visits the sessions in the
order ord; the registry calls return nothing; the error that Close of the
socket returns is dropped. -/
def acceptor.close (env : Env) (ord : RangeOrder) (a : acceptor) :
    Out acceptor Unit :=
  let _dropped := env.socketClose a.socket
  { state := { a with status := networkStatus.statusClosed }
    ret := ()
    trace := (ord.visit a.sessions).map Event.closeSession
      ++ [Event.removeAcceptor a.id, Event.socketClose a.socket] }

/-- The method acceptor.ID. -/
def acceptor.ID (a : acceptor) : Int := a.id

/-- The method acceptor.Send. -/
def acceptor.Send (env : Env) (a : acceptor) (data : Bytes) :
    Out acceptor (Option Error) :=
  { state := a
    ret := env.socketWrite a.socket data
    trace := [Event.socketWrite a.socket data] }

/-- The method acceptor.Push. -/
def acceptor.Push (env : Env) (a : acceptor) (session : Starx.Session)
    (route : String) (v : Value) : Out acceptor (Option Error) :=
  match env.serializeOrRaw v with
  | Res.err e => { state := a, ret := some e, trace := [Event.serializeOrRaw v] }
  | Res.ok data =>
    match env.registryAcceptor session.entityID with
    | Res.err e =>
      { state := a, ret := some e
        trace := [Event.serializeOrRaw v, Event.registryAcceptor session.entityID] }
    | Res.ok rs =>
      match rs.b2fMap.lookup session.ID with
      | none =>
        { state := a, ret := some Error.ErrSidNotExists
          trace := [Event.serializeOrRaw v, Event.registryAcceptor session.entityID] }
      | some sid =>
        let resp : Starx.Response :=
          { Route := route, Kind := HandlerKind.HandlerPush, Data := data, Sid := sid }
        { state := a, ret := env.writeResponse a.socket resp
          trace := [Event.serializeOrRaw v, Event.registryAcceptor session.entityID,
                    Event.writeResponse a.socket resp] }

/-- The method acceptor.Response. -/
def acceptor.Response (env : Env) (a : acceptor) (session : Starx.Session)
    (v : Value) : Out acceptor (Option Error) :=
  match env.serializeOrRaw v with
  | Res.err e => { state := a, ret := some e, trace := [Event.serializeOrRaw v] }
  | Res.ok data =>
    match env.registryAcceptor session.entityID with
    | Res.err e =>
      { state := a, ret := some e
        trace := [Event.serializeOrRaw v, Event.registryAcceptor session.entityID] }
    | Res.ok rs =>
      match rs.b2fMap.lookup session.ID with
      | none =>
        { state := a, ret := some Error.ErrSidNotExists
          trace := [Event.serializeOrRaw v, Event.registryAcceptor session.entityID] }
      | some sid =>
        let resp : Starx.Response :=
          { Route := "", Kind := HandlerKind.HandlerResponse, Data := data, Sid := sid }
        { state := a, ret := env.writeResponse a.socket resp
          trace := [Event.serializeOrRaw v, Event.registryAcceptor session.entityID,
                    Event.writeResponse a.socket resp] }

/-- The method acceptor.Call. -/
def acceptor.Call (env : Env) (a : acceptor) (session : Starx.Session)
    (route : String) (reply : Value) (args : List Value) :
    Out acceptor (Option Error) :=
  match env.routeDecode route with
  | Res.err e => { state := a, ret := some e, trace := [Event.routeDecode route] }
  | Res.ok r =>
    if env.configType = r.ServerType then
      { state := a, ret := some Error.ErrRPCLocal, trace := [Event.routeDecode route] }
    else
      match env.gobEncode args with
      | Res.err e =>
        { state := a, ret := some e
          trace := [Event.routeDecode route, Event.gobEncode args] }
      | Res.ok data =>
        match env.clusterCall RpcKind.User r session data with
        | Res.err e =>
          { state := a, ret := some e
            trace := [Event.routeDecode route, Event.gobEncode args,
                      Event.clusterCall RpcKind.User r session data] }
        | Res.ok ret =>
          { state := a, ret := env.gobDecode reply ret
            trace := [Event.routeDecode route, Event.gobEncode args,
                      Event.clusterCall RpcKind.User r session data,
                      Event.gobDecode reply ret] }

/-- The function newAgent; newID is the id session.NewSession gives the
session. The session belongs to the agent under construction, which then
takes the id of the session, so Entity.ID() of the session is that id. -/
def newAgent (conn : Conn) (now : Int) (newID : Int) : agent :=
  let s := NewSession newID newID
  { id := s.ID
    socket := conn
    status := networkStatus.statusStart
    session := s
    lastTime := now }

/-- The method agent.heartbeat. -/
def agent.heartbeat (g : agent) (now : Int) : agent :=
  { g with lastTime := now }

/-- The method agent.close. The error that Close of the socket returns is
dropped. -/
def agent.close (env : Env) (g : agent) : Out agent Unit :=
  let _dropped := env.socketClose g.socket
  { state := { g with status := networkStatus.statusClosed }
    ret := ()
    trace := [Event.closeSession g.session, Event.socketClose g.socket] }

/-- The method agent.ID. -/
def agent.ID (g : agent) : Int := g.id

/-- The method agent.Send. -/
def agent.Send (env : Env) (g : agent) (data : Bytes) : Out agent (Option Error) :=
  { state := g
    ret := env.socketWrite g.socket data
    trace := [Event.socketWrite g.socket data] }

/-- The method agent.Call. -/
def agent.Call (env : Env) (g : agent) (session : Session)
    (route : String) (reply : Value) (args : List Value) :
    Out agent (Option Error) :=
  match env.routeDecode route with
  | Res.err e => { state := g, ret := some e, trace := [Event.routeDecode route] }
  | Res.ok r =>
    if env.configType = r.ServerType then
      { state := g, ret := some Error.ErrRPCLocal, trace := [Event.routeDecode route] }
    else
      match env.gobEncode args with
      | Res.err e =>
        { state := g, ret := some e
          trace := [Event.routeDecode route, Event.gobEncode args] }
      | Res.ok data =>
        match env.clusterCall RpcKind.User r session data with
        | Res.err e =>
          { state := g, ret := some e
            trace := [Event.routeDecode route, Event.gobEncode args,
                      Event.clusterCall RpcKind.User r session data] }
        | Res.ok ret =>
          { state := g, ret := env.gobDecode reply ret
            trace := [Event.routeDecode route, Event.gobEncode args,
                      Event.clusterCall RpcKind.User r session data,
                      Event.gobDecode reply ret] }

/-! ## Sequences of operations -/

/-- An operation of an acceptor together with its arguments. -/
inductive Op where
  | session (sid : Int) (newID : Int)
  | heartbeat (now : Int)
  | push (s : Session) (route : String) (v : Value)
  | response (s : Session) (v : Value)
  | call (s : Session) (route : String) (reply : Value) (args : List Value)
  | send (data : Bytes)
  | close (ord : RangeOrder)

/-- The acceptor after one operation. -/
def step (env : Env) (a : acceptor) : Op → acceptor
  | Op.session sid newID => (a.Session sid newID).state
  | Op.heartbeat now => a.heartbeat now
  | Op.push s route v => (a.Push env s route v).state
  | Op.response s v => (a.Response env s v).state
  | Op.call s route reply args => (a.Call env s route reply args).state
  | Op.send data => (a.Send env data).state
  | Op.close ord => (a.close env ord).state

/-- The acceptor after a sequence of operations, first operation first. -/
def run (env : Env) (a : acceptor) (ops : List Op) : acceptor :=
  ops.foldl (step env) a

/-- The id offered to a Session operation is fresh: no session of the table
has it (the contract of the session subsystem). -/
def Op.freshAt (a : acceptor) : Op → Bool
  | Op.session _ newID => decide (newID ∉ a.sessionMap)
  | _ => true

/-- The id offered to a Session operation is positive. -/
def Op.positive : Op → Bool
  | Op.session _ newID => decide (0 < newID)
  | _ => true

/-- Every Session operation of the sequence is offered a fresh id. -/
def freshRun (env : Env) (a : acceptor) : List Op → Bool
  | [] => true
  | op :: ops => op.freshAt a && freshRun env (step env a op) ops

/-- Every Session operation of the sequence is offered a positive id. -/
def positiveRun (ops : List Op) : Bool :=
  ops.all Op.positive

/-- The tables f2bMap and b2fMap are inverses of one another. -/
def Inverse (a : acceptor) : Prop :=
  (∀ k b, a.f2bMap.lookup k = some b → a.b2fMap.lookup b = some k) ∧
  (∀ b k, a.b2fMap.lookup b = some k → a.f2bMap.lookup k = some b)

/-- Every value of f2bMap is a key of sessionMap. -/
def Contained (a : acceptor) : Prop :=
  ∀ k b, a.f2bMap.lookup k = some b → b ∈ a.sessionMap

/-- Every session of sessionMap is stored under its own id. -/
def OwnID (a : acceptor) : Prop :=
  ∀ k s, a.sessionMap.lookup k = some s → s.ID = k

/-- The invariant behind the inverse property: the tables are inverses,
every key of b2fMap is a key of sessionMap, and every value of f2bMap is
positive. -/
def InverseInv (a : acceptor) : Prop :=
  Inverse a ∧ (∀ b, b ∈ a.b2fMap → b ∈ a.sessionMap) ∧
    (∀ k b, a.f2bMap.lookup k = some b → 0 < b)

/-- The call Session(sid) reaches session.NewSession: f2bMap has no entry
for sid, or the entry is not positive. -/
def Allocates (a : acceptor) (sid : Int) : Prop :=
  ∀ b, a.f2bMap.lookup sid = some b → ¬ 0 < b

/-- The event is a write to a connection. -/
def Event.isWrite : Event → Bool
  | Event.writeResponse _ _ => true
  | Event.socketWrite _ _ => true
  | _ => false

/-- The event is an invocation of the cluster transport. -/
def Event.isClusterCall : Event → Bool
  | Event.clusterCall _ _ _ _ => true
  | _ => false

/-- The event is an encoding of call arguments. -/
def Event.isGobEncode : Event → Bool
  | Event.gobEncode _ => true
  | _ => false

/-! ## The dispatch of a remote call as the specification words it -/

/-- One stage of a dispatch: the collaborator invocation ev gave r; a failure
ends the dispatch with that error, a value is passed on to the later stages. -/
def stage {α : Type} (ev : Event) (r : Res α)
    (next : α → List Event × Option Error) : List Event × Option Error :=
  match r with
  | Res.err e => ([ev], some e)
  | Res.ok v => (ev :: (next v).1, (next v).2)

/-- The dispatch of the specification: decode the route; refuse a route to
the own server type; encode the arguments; invoke the cluster transport with
the kind user; decode the reply. The result is the invocations made and the
error returned. -/
def rpcDispatch (env : Env) (session : Session) (route : String)
    (reply : Value) (args : List Value) : List Event × Option Error :=
  stage (Event.routeDecode route) (env.routeDecode route) fun r =>
    if r.ServerType = env.configType then ([], some Error.ErrRPCLocal)
    else
      stage (Event.gobEncode args) (env.gobEncode args) fun data =>
        stage (Event.clusterCall RpcKind.User r session data)
          (env.clusterCall RpcKind.User r session data) fun ret =>
            ([Event.gobDecode reply ret], env.gobDecode reply ret)

/-! ## Concrete collaborators and entities for the examples -/

/-- Collaborators of a server of type connector: payloads that are integers
do not serialize, the registry knows the acceptor with id 7, which maps
backend session 1001 to frontend sid 42, and the acceptor with id 8, which
has no session; closing a socket fails. -/
def sampleEnv : Env :=
  { configType := "connector"
    routeDecode := fun route =>
      if route = "connector.login" then
        Res.ok { ServerType := "connector", Service := "connector", Method := "login" }
      else if route = "chat.send" then
        Res.ok { ServerType := "chat", Service := "chat", Method := "send" }
      else Res.err (Error.other "invalid route")
    gobEncode := fun args => Res.ok (args.map fun _ => 1)
    clusterCall := fun _ _ _ data => Res.ok data
    gobDecode := fun _ _ => none
    serializeOrRaw := fun v =>
      match v with
      | Value.raw b => Res.ok b
      | Value.str s => Res.ok (s.toList.map Char.toNat)
      | Value.int _ => Res.err (Error.other "cannot serialize")
    registryAcceptor := fun id =>
      if id = 7 then
        Res.ok ((newAcceptor 7 { fd := 3 } 100).Session 42 1001).state
      else if id = 8 then
        Res.ok (newAcceptor 8 { fd := 4 } 100)
      else Res.err (Error.other "acceptor not found")
    writeResponse := fun _ _ => none
    socketWrite := fun _ _ => none
    socketClose := fun _ => some (Error.other "use of closed network connection") }

/-- An acceptor with id 7 that has resolved frontend sid 42 to session 1001. -/
def sampleAcceptor : acceptor :=
  ((newAcceptor 7 { fd := 3 } 100).Session 42 1001).state

/-- The session 1001 of the sample acceptor. -/
def sampleSession : Session :=
  NewSession 7 1001

/-- An acceptor with id 7 that owns the three sessions 1001, 1002, 1003. -/
def threeSessions : acceptor :=
  run sampleEnv (newAcceptor 7 { fd := 3 } 100)
    [Op.session 42 1001, Op.session 43 1002, Op.session 44 1003]

/-! ## Auxiliary facts -/

theorem Push_state (env : Env) (a : acceptor) (session : Session)
    (route : String) (v : Value) : (a.Push env session route v).state = a := by
  unfold acceptor.Push
  split
  · rfl
  · split
    · rfl
    · split <;> rfl

theorem Response_state (env : Env) (a : acceptor) (session : Session)
    (v : Value) : (a.Response env session v).state = a := by
  unfold acceptor.Response
  split
  · rfl
  · split
    · rfl
    · split <;> rfl

theorem Call_state (env : Env) (a : acceptor) (session : Session)
    (route : String) (reply : Value) (args : List Value) :
    (a.Call env session route reply args).state = a := by
  unfold acceptor.Call
  split
  · rfl
  · split
    · rfl
    · split
      · rfl
      · split <;> rfl

theorem Session_hit (a : acceptor) (sid newID b : Int)
    (h : a.f2bMap.lookup sid = some b) (hb : 0 < b) :
    a.Session sid newID = { state := a, ret := a.sessionMap.lookup b, trace := [] } := by
  simp [acceptor.Session, h, hb]

theorem Session_alloc (a : acceptor) (sid newID : Int) (h : Allocates a sid) :
    a.Session sid newID =
      { state := { a with
                     sessionMap := a.sessionMap.insert newID (NewSession a.id newID)
                     f2bMap := a.f2bMap.insert sid newID
                     b2fMap := a.b2fMap.insert newID sid }
        ret := some (NewSession a.id newID)
        trace := [Event.newSession a.id newID] } := by
  unfold acceptor.Session
  cases hl : a.f2bMap.lookup sid with
  | none => rfl
  | some b =>
    have hb : ¬ b > 0 := h b hl
    simp [hb, NewSession]

theorem hit_or_alloc (a : acceptor) (sid : Int) :
    (∃ b, a.f2bMap.lookup sid = some b ∧ 0 < b) ∨ Allocates a sid := by
  cases hl : a.f2bMap.lookup sid with
  | none =>
    right
    intro b hb
    simp [hl] at hb
  | some b =>
    by_cases hb : 0 < b
    · exact Or.inl ⟨b, rfl, hb⟩
    · right
      intro c hc
      rw [hl] at hc
      cases hc
      exact hb

/-- An operation other than Session leaves the three tables as they were. -/
theorem step_tables (env : Env) (a : acceptor) (op : Op)
    (hop : ∀ sid newID, op ≠ Op.session sid newID) :
    (step env a op).sessionMap = a.sessionMap ∧
      (step env a op).f2bMap = a.f2bMap ∧
      (step env a op).b2fMap = a.b2fMap := by
  cases op with
  | session sid newID => exact absurd rfl (hop sid newID)
  | heartbeat now => exact ⟨rfl, rfl, rfl⟩
  | push s route v => simp [step, Push_state]
  | response s v => simp [step, Response_state]
  | call s route reply args => simp [step, Call_state]
  | send data => exact ⟨rfl, rfl, rfl⟩
  | close ord => exact ⟨rfl, rfl, rfl⟩

theorem Contained_OwnID_Session (a : acceptor) (sid newID : Int)
    (h : Contained a ∧ OwnID a) :
    Contained (a.Session sid newID).state ∧ OwnID (a.Session sid newID).state := by
  rcases hit_or_alloc a sid with ⟨b, hb, hpos⟩ | hall
  · rw [Session_hit a sid newID b hb hpos]
    exact h
  · rw [Session_alloc a sid newID hall]
    constructor
    · intro k b hk
      show b ∈ a.sessionMap.insert newID (NewSession a.id newID)
      rw [AList.mem_insert]
      by_cases hks : k = sid
      · subst hks
        have hk2 : (a.f2bMap.insert k newID).lookup k = some b := hk
        rw [AList.lookup_insert] at hk2
        left
        cases hk2
        rfl
      · have hk2 : (a.f2bMap.insert sid newID).lookup k = some b := hk
        rw [AList.lookup_insert_ne hks] at hk2
        exact Or.inr (h.1 k b hk2)
    · intro k s hk
      have hk2 : (a.sessionMap.insert newID (NewSession a.id newID)).lookup k = some s := hk
      by_cases hkn : k = newID
      · subst hkn
        rw [AList.lookup_insert] at hk2
        cases hk2
        rfl
      · rw [AList.lookup_insert_ne hkn] at hk2
        exact h.2 k s hk2

theorem Contained_OwnID_step (env : Env) (a : acceptor) (op : Op)
    (h : Contained a ∧ OwnID a) :
    Contained (step env a op) ∧ OwnID (step env a op) := by
  by_cases hop : ∃ sid newID, op = Op.session sid newID
  · obtain ⟨sid, newID, rfl⟩ := hop
    exact Contained_OwnID_Session a sid newID h
  · have hop2 : ∀ sid newID, op ≠ Op.session sid newID :=
      fun sid newID e => hop ⟨sid, newID, e⟩
    obtain ⟨h1, h2, _⟩ := step_tables env a op hop2
    unfold Contained OwnID
    rw [h1, h2]
    exact h

theorem Contained_OwnID_run (env : Env) (ops : List Op) :
    ∀ a : acceptor, Contained a ∧ OwnID a →
      Contained (run env a ops) ∧ OwnID (run env a ops) := by
  induction ops with
  | nil => intro a h; exact h
  | cons op ops ih =>
    intro a h
    exact ih (step env a op) (Contained_OwnID_step env a op h)

theorem Contained_OwnID_new (id : Int) (conn : Conn) (now : Int) :
    Contained (newAcceptor id conn now) ∧ OwnID (newAcceptor id conn now) := by
  constructor
  · intro k b hk
    simp [newAcceptor] at hk
  · intro k s hk
    simp [newAcceptor] at hk

theorem InverseInv_Session (a : acceptor) (sid newID : Int) (h : InverseInv a)
    (hfresh : newID ∉ a.sessionMap) (hpos : 0 < newID) :
    InverseInv (a.Session sid newID).state := by
  obtain ⟨⟨hfb, hbf⟩, hsub, hval⟩ := h
  cases hl : a.f2bMap.lookup sid with
  | some b =>
    rw [Session_hit a sid newID b hl (hval sid b hl)]
    exact ⟨⟨hfb, hbf⟩, hsub, hval⟩
  | none =>
    have hall : Allocates a sid := by
      intro b hb
      simp [hl] at hb
    have hnb : newID ∉ a.b2fMap := fun hm => hfresh (hsub newID hm)
    rw [Session_alloc a sid newID hall]
    refine ⟨⟨?_, ?_⟩, ?_, ?_⟩
    · intro k b hk
      have hk2 : (a.f2bMap.insert sid newID).lookup k = some b := hk
      show (a.b2fMap.insert newID sid).lookup b = some k
      by_cases hks : k = sid
      · subst hks
        rw [AList.lookup_insert] at hk2
        cases hk2
        exact AList.lookup_insert _
      · rw [AList.lookup_insert_ne hks] at hk2
        have hbk : a.b2fMap.lookup b = some k := hfb k b hk2
        have hbn : b ≠ newID := by
          intro e
          subst e
          exact hnb (AList.lookup_isSome.mp (by simp [hbk]))
        rw [AList.lookup_insert_ne hbn]
        exact hbk
    · intro b k hb
      have hb2 : (a.b2fMap.insert newID sid).lookup b = some k := hb
      show (a.f2bMap.insert sid newID).lookup k = some b
      by_cases hbn : b = newID
      · subst hbn
        rw [AList.lookup_insert] at hb2
        cases hb2
        exact AList.lookup_insert _
      · rw [AList.lookup_insert_ne hbn] at hb2
        have hkb : a.f2bMap.lookup k = some b := hbf b k hb2
        have hks : k ≠ sid := by
          intro e
          subst e
          rw [hl] at hkb
          cases hkb
        rw [AList.lookup_insert_ne hks]
        exact hkb
    · intro b hb
      have hb2 : b ∈ a.b2fMap.insert newID sid := hb
      show b ∈ a.sessionMap.insert newID (NewSession a.id newID)
      rw [AList.mem_insert] at hb2 ⊢
      rcases hb2 with e | hm
      · exact Or.inl e
      · exact Or.inr (hsub b hm)
    · intro k b hk
      have hk2 : (a.f2bMap.insert sid newID).lookup k = some b := hk
      by_cases hks : k = sid
      · subst hks
        rw [AList.lookup_insert] at hk2
        cases hk2
        exact hpos
      · rw [AList.lookup_insert_ne hks] at hk2
        exact hval k b hk2

theorem InverseInv_step (env : Env) (a : acceptor) (op : Op) (h : InverseInv a)
    (hfresh : op.freshAt a = true) (hpos : op.positive = true) :
    InverseInv (step env a op) := by
  by_cases hop : ∃ sid newID, op = Op.session sid newID
  · obtain ⟨sid, newID, rfl⟩ := hop
    simp only [Op.freshAt, Op.positive, decide_eq_true_eq] at hfresh hpos
    exact InverseInv_Session a sid newID h hfresh hpos
  · have hop2 : ∀ sid newID, op ≠ Op.session sid newID :=
      fun sid newID e => hop ⟨sid, newID, e⟩
    obtain ⟨h1, h2, h3⟩ := step_tables env a op hop2
    unfold InverseInv Inverse
    rw [h1, h2, h3]
    exact h

theorem InverseInv_run (env : Env) (ops : List Op) :
    ∀ a : acceptor, InverseInv a → freshRun env a ops = true →
      positiveRun ops = true → InverseInv (run env a ops) := by
  induction ops with
  | nil => intro a h _ _; exact h
  | cons op ops ih =>
    intro a h hfresh hpos
    simp only [freshRun, Bool.and_eq_true] at hfresh
    simp only [positiveRun, List.all_cons, Bool.and_eq_true] at hpos
    exact ih (step env a op) (InverseInv_step env a op h hfresh.1 hpos.1) hfresh.2 hpos.2

theorem InverseInv_new (id : Int) (conn : Conn) (now : Int) :
    InverseInv (newAcceptor id conn now) := by
  refine ⟨⟨?_, ?_⟩, ?_, ?_⟩
  · intro k b hk
    simp [newAcceptor] at hk
  · intro b k hb
    simp [newAcceptor] at hb
  · intro b hb
    simp [newAcceptor] at hb
  · intro k b hk
    simp [newAcceptor] at hk

/-! ## Remote calls -/

/-- C3 (locality rejection): in both variants, when the route decodes to a
route whose server type is the configured type of the process, Call returns
ErrRPCLocal, the only collaborator invoked is the route decoder (so the
cluster transport is never invoked and no argument is encoded), and the
entity is left as it was. -/
theorem Call_local_rejected (env : Env) (a : acceptor) (g : agent)
    (session : Session) (route : String) (reply : Value) (args : List Value)
    (r : Route) (hdec : env.routeDecode route = Res.ok r)
    (hloc : r.ServerType = env.configType) :
    ((a.Call env session route reply args).ret = some Error.ErrRPCLocal ∧
      (a.Call env session route reply args).trace = [Event.routeDecode route] ∧
      (a.Call env session route reply args).trace.countP Event.isClusterCall = 0 ∧
      (a.Call env session route reply args).trace.countP Event.isGobEncode = 0 ∧
      (a.Call env session route reply args).state = a) ∧
    ((g.Call env session route reply args).ret = some Error.ErrRPCLocal ∧
      (g.Call env session route reply args).trace = [Event.routeDecode route] ∧
      (g.Call env session route reply args).trace.countP Event.isClusterCall = 0 ∧
      (g.Call env session route reply args).trace.countP Event.isGobEncode = 0 ∧
      (g.Call env session route reply args).state = g) := by
  simp [acceptor.Call, agent.Call, hdec, hloc, Event.isClusterCall, Event.isGobEncode]

/-- The server of type connector calls connector.login: the call is refused
as local by the acceptor and by the agent. -/
theorem Call_local_rejected_witness :
    sampleEnv.routeDecode "connector.login"
        = Res.ok { ServerType := "connector", Service := "connector", Method := "login" } ∧
      ((sampleAcceptor.Call sampleEnv sampleSession "connector.login"
          (Value.int 0) [Value.str "bob"]).ret = some Error.ErrRPCLocal ∧
        ((newAgent { fd := 5 } 100 9).Call sampleEnv sampleSession "connector.login"
          (Value.int 0) [Value.str "bob"]).ret = some Error.ErrRPCLocal) :=
  ⟨rfl,
    (Call_local_rejected sampleEnv sampleAcceptor (newAgent { fd := 5 } 100 9)
      sampleSession "connector.login" (Value.int 0) [Value.str "bob"]
      { ServerType := "connector", Service := "connector", Method := "login" }
      rfl rfl).1.1,
    (Call_local_rejected sampleEnv sampleAcceptor (newAgent { fd := 5 } 100 9)
      sampleSession "connector.login" (Value.int 0) [Value.str "bob"]
      { ServerType := "connector", Service := "connector", Method := "login" }
      rfl rfl).2.1⟩

/-- C9 (one dispatch logic): for the same collaborators and arguments,
acceptor.Call and agent.Call return the same error and make the same
invocations; both are the dispatch of the specification (decode the route,
check locality, encode the arguments, call the cluster with kind user,
decode the reply, stopping at the first failure); the outcome does not
depend on the entity, and the entity is left as it was. -/
theorem Call_same_dispatch (env : Env) (a : acceptor) (g : agent)
    (session : Session) (route : String) (reply : Value) (args : List Value) :
    (a.Call env session route reply args).ret
        = (g.Call env session route reply args).ret ∧
      (a.Call env session route reply args).trace
        = (g.Call env session route reply args).trace ∧
      ((a.Call env session route reply args).trace,
          (a.Call env session route reply args).ret)
        = rpcDispatch env session route reply args ∧
      ((g.Call env session route reply args).trace,
          (g.Call env session route reply args).ret)
        = rpcDispatch env session route reply args ∧
      (a.Call env session route reply args).state = a ∧
      (g.Call env session route reply args).state = g := by
  unfold acceptor.Call agent.Call rpcDispatch
  cases hdec : env.routeDecode route with
  | err e => simp [stage]
  | ok r =>
    by_cases hloc : env.configType = r.ServerType
    · simp [stage, hloc]
    · have hloc2 : ¬ r.ServerType = env.configType := fun h => hloc h.symm
      cases henc : env.gobEncode args with
      | err e => simp [stage, hloc, hloc2]
      | ok data =>
        cases hcall : env.clusterCall RpcKind.User r session data with
        | err e => simp [stage, hloc, hloc2, hcall]
        | ok ret => simp [stage, hloc, hloc2, hcall]

/-! ## Push and Response -/

/-- C6 (outbound frame): when the payload serializes to data, the registry
resolves the entity of the session to rs, and rs.b2fMap maps the id of the
session to f, Push hands the protocol writer, on the socket of the receiver,
exactly the message with the given route, kind push, data and sid f, and
Response exactly the message with empty route, kind response, data and sid
f; each returns what the writer returned and writes nothing else. -/
theorem Push_Response_frame (env : Env) (a rs : acceptor) (session : Session)
    (route : String) (v : Value) (data : Bytes) (f : Int)
    (hser : env.serializeOrRaw v = Res.ok data)
    (hreg : env.registryAcceptor session.entityID = Res.ok rs)
    (hsid : rs.b2fMap.lookup session.ID = some f) :
    ((a.Push env session route v).trace.filter Event.isWrite
        = [Event.writeResponse a.socket
            { Route := route, Kind := HandlerKind.HandlerPush, Data := data, Sid := f }] ∧
      (a.Push env session route v).ret
        = env.writeResponse a.socket
            { Route := route, Kind := HandlerKind.HandlerPush, Data := data, Sid := f } ∧
      (a.Push env session route v).state = a) ∧
    ((a.Response env session v).trace.filter Event.isWrite
        = [Event.writeResponse a.socket
            { Route := "", Kind := HandlerKind.HandlerResponse, Data := data, Sid := f }] ∧
      (a.Response env session v).ret
        = env.writeResponse a.socket
            { Route := "", Kind := HandlerKind.HandlerResponse, Data := data, Sid := f } ∧
      (a.Response env session v).state = a) := by
  simp [acceptor.Push, acceptor.Response, hser, hreg, hsid, Event.isWrite]

/-- The scenario of the specification: a push of route room.message to
session 1001 goes out addressed to frontend sid 42. -/
theorem Push_Response_frame_witness :
    (sampleAcceptor.Push sampleEnv sampleSession "room.message"
        (Value.raw [104, 105])).trace.filter Event.isWrite
      = [Event.writeResponse { fd := 3 }
          { Route := "room.message", Kind := HandlerKind.HandlerPush,
            Data := [104, 105], Sid := 42 }] :=
  (Push_Response_frame sampleEnv sampleAcceptor sampleAcceptor sampleSession
    "room.message" (Value.raw [104, 105]) [104, 105] 42 rfl rfl rfl).1.1

/-- C4 as stated fails: session 5 is unknown to the resolved acceptor 8, yet
a push and a response of a payload that does not serialize return the error
of the serializer, not ErrSidNotExists. -/
theorem stale_sid_serialize_error_first :
    sampleEnv.registryAcceptor (NewSession 8 5).entityID
        = Res.ok (newAcceptor 8 { fd := 4 } 100) ∧
      (newAcceptor 8 { fd := 4 } 100).b2fMap.lookup (NewSession 8 5).ID = none ∧
      (sampleAcceptor.Push sampleEnv (NewSession 8 5) "room.message" (Value.int 1)).ret
        ≠ some Error.ErrSidNotExists ∧
      (sampleAcceptor.Response sampleEnv (NewSession 8 5) (Value.int 1)).ret
        ≠ some Error.ErrSidNotExists := by
  refine ⟨rfl, rfl, ?_, ?_⟩ <;> decide

/-- C4 (stale addressing), amended: when the registry resolves the entity
of the session to rs and rs.b2fMap has no entry for the id of the session,
Push and Response write nothing to the connection and leave the receiver as
it was, for every payload; they return ErrSidNotExists whenever the payload
serializes, and the error of the serializer when it does not. -/
theorem Push_Response_stale_sid (env : Env) (a rs : acceptor) (session : Session)
    (route : String) (v : Value)
    (hreg : env.registryAcceptor session.entityID = Res.ok rs)
    (hsid : rs.b2fMap.lookup session.ID = none) :
    ((a.Push env session route v).trace.countP Event.isWrite = 0 ∧
      (a.Push env session route v).state = a ∧
      (∀ data, env.serializeOrRaw v = Res.ok data →
        (a.Push env session route v).ret = some Error.ErrSidNotExists) ∧
      (∀ e, env.serializeOrRaw v = Res.err e →
        (a.Push env session route v).ret = some e)) ∧
    ((a.Response env session v).trace.countP Event.isWrite = 0 ∧
      (a.Response env session v).state = a ∧
      (∀ data, env.serializeOrRaw v = Res.ok data →
        (a.Response env session v).ret = some Error.ErrSidNotExists) ∧
      (∀ e, env.serializeOrRaw v = Res.err e →
        (a.Response env session v).ret = some e)) := by
  cases hser : env.serializeOrRaw v with
  | err e => simp [acceptor.Push, acceptor.Response, hser, Event.isWrite]
  | ok data => simp [acceptor.Push, acceptor.Response, hser, hreg, hsid, Event.isWrite]

/-- A push to session 5, which acceptor 8 does not know: with a payload that
serializes it misses, and with one that does not it still writes nothing. -/
theorem Push_Response_stale_sid_witness :
    (sampleAcceptor.Push sampleEnv (NewSession 8 5) "room.message"
        (Value.str "hi")).ret = some Error.ErrSidNotExists ∧
      (sampleAcceptor.Push sampleEnv (NewSession 8 5) "room.message"
        (Value.int 1)).trace.countP Event.isWrite = 0 :=
  ⟨(Push_Response_stale_sid sampleEnv sampleAcceptor (newAcceptor 8 { fd := 4 } 100)
      (NewSession 8 5) "room.message" (Value.str "hi") rfl rfl).1.2.2.1 [104, 105] rfl,
    (Push_Response_stale_sid sampleEnv sampleAcceptor (newAcceptor 8 { fd := 4 } 100)
      (NewSession 8 5) "room.message" (Value.int 1) rfl rfl).1.1⟩

/-! ## Closing -/

/-- C5 (close completeness): one call of acceptor.close, whatever order its
range loop takes, sets the status to closed and makes one closeSession call
for each session the loop visits, then one removeAcceptor call for the
entity, then one Close of the socket, and nothing else; the outcome is the
same whatever the collaborators return, in particular when Close of the
socket fails. Counted: every session has as many closeSession calls as
entries of sessionMap holding it, which is one for every session of a table
whose sessions are distinct; removeAcceptor is called once, for the id of
the entity; the socket is closed once. -/
theorem close_complete (env : Env) (ord : RangeOrder) (a : acceptor) :
    (a.close env ord).state.status = networkStatus.statusClosed ∧
      (a.close env ord).trace = (ord.visit a.sessions).map Event.closeSession
        ++ [Event.removeAcceptor a.id, Event.socketClose a.socket] ∧
      (∀ env2 : Env, (a.close env2 ord).trace = (a.close env ord).trace ∧
        (a.close env2 ord).state = (a.close env ord).state) ∧
      (ord.visit a.sessions).length = a.sessionMap.keys.length ∧
      (∀ s, (a.close env ord).trace.count (Event.closeSession s) = a.sessions.count s) ∧
      (a.sessions.Nodup → ∀ s ∈ a.sessions,
        (a.close env ord).trace.count (Event.closeSession s) = 1) ∧
      (∀ i, (a.close env ord).trace.count (Event.removeAcceptor i)
        = if i = a.id then 1 else 0) ∧
      (∀ c, (a.close env ord).trace.count (Event.socketClose c)
        = if c = a.socket then 1 else 0) := by
  have hinj : Function.Injective Event.closeSession := by
    intro s t h
    injection h
  have hcount : ∀ s, (a.close env ord).trace.count (Event.closeSession s)
      = a.sessions.count s := by
    intro s
    have hp : (ord.visit a.sessions).count s = a.sessions.count s :=
      (ord.perm a.sessions).count_eq s
    simp [acceptor.close, List.count_append, List.count_cons,
      List.count_map_of_injective _ _ hinj, hp]
  refine ⟨rfl, rfl, fun _ => ⟨rfl, rfl⟩, ?_, hcount, ?_, ?_, ?_⟩
  · rw [(ord.perm a.sessions).length_eq]
    simp [acceptor.sessions, AList.keys, List.keys]
  · intro hnd s hs
    rw [hcount s]
    exact List.count_eq_one_of_mem hnd hs
  · intro i
    have hnone : ∀ l : List Session,
        (l.map Event.closeSession).count (Event.removeAcceptor i) = 0 := by
      intro l
      induction l with
      | nil => rfl
      | cons x xs ih => simp [List.count_cons, ih]
    by_cases h : i = a.id
    · subst h
      simp [acceptor.close, List.count_append, List.count_cons, hnone]
    · have h2 : ¬ a.id = i := fun e => h e.symm
      simp [acceptor.close, List.count_append, List.count_cons, hnone, h, h2]
  · intro c
    have hnone : ∀ l : List Session,
        (l.map Event.closeSession).count (Event.socketClose c) = 0 := by
      intro l
      induction l with
      | nil => rfl
      | cons x xs ih => simp [List.count_cons, ih]
    by_cases h : c = a.socket
    · subst h
      simp [acceptor.close, List.count_append, List.count_cons, hnone]
    · have h2 : ¬ a.socket = c := fun e => h e.symm
      simp [acceptor.close, List.count_append, List.count_cons, hnone, h, h2]

/-- Closing the acceptor that owns sessions 1001, 1002 and 1003, with a
range loop that runs against the entry order and a socket whose Close
fails: session 1002 gets one closeSession call. -/
theorem close_complete_witness :
    (threeSessions.close sampleEnv RangeOrder.reversed).trace.count
        (Event.closeSession (NewSession 7 1002)) = 1 :=
  (close_complete sampleEnv RangeOrder.reversed threeSessions).2.2.2.2.2.1 (by decide)
    (NewSession 7 1002) (by decide)

/-- C1 as stated fails: when the session subsystem hands out the id 0, the
entry f2bMap[42] = 0 does not pass the test bsid > 0, and a second
Session(42) creates a second session. -/
theorem Session_twice_differs_on_id_zero :
    (((newAcceptor 7 { fd := 3 } 100).Session 42 0).state.Session 42 1).ret
        ≠ ((newAcceptor 7 { fd := 3 } 100).Session 42 0).ret ∧
      (((newAcceptor 7 { fd := 3 } 100).Session 42 0).state.Session 42 1).trace
        = [Event.newSession 7 1] := by
  constructor
  · decide
  · rfl

/-- C1 (idempotent resolution), amended: for every acceptor and frontend
sid, when the session that the first Session(sid) creates, if it creates
one, has a positive id, the second Session(sid) returns the same session as
the first, creates no session, and leaves the acceptor as the first call
left it. -/
theorem Session_idempotent (a : acceptor) (sid n1 n2 : Int)
    (hpos : Allocates a sid → 0 < n1) :
    ((a.Session sid n1).state.Session sid n2).ret = (a.Session sid n1).ret ∧
      ((a.Session sid n1).state.Session sid n2).trace = [] ∧
      ((a.Session sid n1).state.Session sid n2).state = (a.Session sid n1).state := by
  rcases hit_or_alloc a sid with ⟨b, hb, hbpos⟩ | hall
  · rw [Session_hit a sid n1 b hb hbpos]
    simp only []
    rw [Session_hit a sid n2 b hb hbpos]
    exact ⟨rfl, rfl, rfl⟩
  · rw [Session_alloc a sid n1 hall]
    simp only []
    rw [Session_hit _ sid n2 n1 (AList.lookup_insert _) (hpos hall)]
    refine ⟨?_, rfl, rfl⟩
    exact AList.lookup_insert _

/-- The scenario of the specification: frontend sid 42 resolves to session
1001 the first time and the second time. -/
theorem Session_idempotent_witness :
    (((newAcceptor 7 { fd := 3 } 100).Session 42 1001).state.Session 42 1002).ret
      = ((newAcceptor 7 { fd := 3 } 100).Session 42 1001).ret :=
  (Session_idempotent (newAcceptor 7 { fd := 3 } 100) 42 1001 1002
    (fun _ => by decide)).1

/-- C10 (resolution frame): when Session(sid) creates a session, whose id
newID is positive and not a key of sessionMap or b2fMap, the f2bMap entry of
every other frontend sid, the b2fMap and sessionMap entries of every other
backend id, and the fields id, socket, status and lastTime are as before;
when Session(sid) finds a positive entry for sid it returns the session
stored under it and changes nothing. -/
theorem Session_frame (a : acceptor) (sid newID : Int) :
    (Allocates a sid → 0 < newID → newID ∉ a.sessionMap → newID ∉ a.b2fMap →
      (∀ k, k ≠ sid →
        (a.Session sid newID).state.f2bMap.lookup k = a.f2bMap.lookup k) ∧
      (∀ b, b ≠ newID →
        (a.Session sid newID).state.b2fMap.lookup b = a.b2fMap.lookup b) ∧
      (∀ b, b ≠ newID →
        (a.Session sid newID).state.sessionMap.lookup b = a.sessionMap.lookup b) ∧
      (a.Session sid newID).state.id = a.id ∧
      (a.Session sid newID).state.socket = a.socket ∧
      (a.Session sid newID).state.status = a.status ∧
      (a.Session sid newID).state.lastTime = a.lastTime) ∧
    (∀ b, a.f2bMap.lookup sid = some b → 0 < b →
      (a.Session sid newID).state = a ∧
      (a.Session sid newID).ret = a.sessionMap.lookup b) := by
  constructor
  · intro hall _ _ _
    rw [Session_alloc a sid newID hall]
    refine ⟨?_, ?_, ?_, rfl, rfl, rfl, rfl⟩
    · intro k hk
      exact AList.lookup_insert_ne hk
    · intro b hb
      exact AList.lookup_insert_ne hb
    · intro b hb
      exact AList.lookup_insert_ne hb
  · intro b hb hpos
    rw [Session_hit a sid newID b hb hpos]
    exact ⟨rfl, rfl⟩

/-- The sample acceptor resolves the new frontend sid 43 to session 1002:
the entry of sid 42 stays; resolving sid 42 again changes nothing. -/
theorem Session_frame_witness :
    (sampleAcceptor.Session 43 1002).state.f2bMap.lookup 42
        = sampleAcceptor.f2bMap.lookup 42 ∧
      (sampleAcceptor.Session 42 1002).state = sampleAcceptor :=
  ⟨((Session_frame sampleAcceptor 43 1002).1
      (by
        intro b hb
        rw [show sampleAcceptor.f2bMap.lookup 43 = none by decide] at hb
        cases hb)
      (by decide) (by decide) (by decide)).1 42 (by decide),
    ((Session_frame sampleAcceptor 42 1002).2 1001 (by decide) (by decide)).1⟩

/-! ## Invariants of reachable states -/

/-- C2 as stated fails: starting from newAcceptor, Session(42) is handed the
fresh id 0 and then, as 0 does not pass the test bsid > 0, the fresh id 1;
b2fMap keeps the entry 0 -> 42 while f2bMap[42] is now 1. -/
theorem inverse_broken_by_id_zero :
    freshRun sampleEnv (newAcceptor 7 { fd := 3 } 100)
        [Op.session 42 0, Op.session 42 1] = true ∧
      ¬ Inverse (run sampleEnv (newAcceptor 7 { fd := 3 } 100)
        [Op.session 42 0, Op.session 42 1]) := by
  constructor
  · decide
  · intro h
    have h2 := h.2 0 42 (by decide)
    revert h2
    decide

/-- C2 (inverse invariant), amended: in every state reached from newAcceptor
by a sequence of operations in which every id handed to Session is positive
and not yet a key of sessionMap, f2bMap and b2fMap are inverses: every entry
k -> b of f2bMap has the entry b -> k in b2fMap, and conversely. -/
theorem inverse_invariant (env : Env) (id : Int) (conn : Conn) (now : Int)
    (ops : List Op)
    (hfresh : freshRun env (newAcceptor id conn now) ops = true)
    (hpos : positiveRun ops = true) :
    (∀ k b, (run env (newAcceptor id conn now) ops).f2bMap.lookup k = some b →
      (run env (newAcceptor id conn now) ops).b2fMap.lookup b = some k) ∧
    (∀ b k, (run env (newAcceptor id conn now) ops).b2fMap.lookup b = some k →
      (run env (newAcceptor id conn now) ops).f2bMap.lookup k = some b) :=
  (InverseInv_run env ops (newAcceptor id conn now)
    (InverseInv_new id conn now) hfresh hpos).1

/-- Two frontend sids resolved, a push, a heartbeat and a close in between:
the tables of the resulting state are inverses. -/
theorem inverse_invariant_witness :
    Inverse (run sampleEnv (newAcceptor 7 { fd := 3 } 100)
      [Op.session 42 1001, Op.push sampleSession "room.message" (Value.str "hi"),
        Op.session 43 1002, Op.heartbeat 101, Op.session 42 1003,
        Op.close RangeOrder.reversed]) :=
  inverse_invariant sampleEnv 7 { fd := 3 } 100
    [Op.session 42 1001, Op.push sampleSession "room.message" (Value.str "hi"),
      Op.session 43 1002, Op.heartbeat 101, Op.session 42 1003,
        Op.close RangeOrder.reversed]
    (by decide) (by decide)

/-- C8 (table containment): in every state reached from newAcceptor by any
sequence of operations, every value of f2bMap is a key of sessionMap and
every session is stored under its own id; so Session(sid) returns a session
(not nil) that, after the call, sessionMap holds under the session id and
f2bMap[sid] names. -/
theorem containment_invariant (env : Env) (id : Int) (conn : Conn) (now : Int)
    (ops : List Op) :
    (∀ k b, (run env (newAcceptor id conn now) ops).f2bMap.lookup k = some b →
      b ∈ (run env (newAcceptor id conn now) ops).sessionMap) ∧
    (∀ sid newID, ∃ s,
      ((run env (newAcceptor id conn now) ops).Session sid newID).ret = some s ∧
      ((run env (newAcceptor id conn now) ops).Session sid newID).state.sessionMap.lookup s.ID
        = some s ∧
      ((run env (newAcceptor id conn now) ops).Session sid newID).state.f2bMap.lookup sid
        = some s.ID) := by
  obtain ⟨hc, ho⟩ := Contained_OwnID_run env ops (newAcceptor id conn now)
    (Contained_OwnID_new id conn now)
  refine ⟨hc, ?_⟩
  intro sid newID
  generalize run env (newAcceptor id conn now) ops = a at hc ho
  rcases hit_or_alloc a sid with ⟨b, hb, hbpos⟩ | hall
  · rw [Session_hit a sid newID b hb hbpos]
    have hmem : b ∈ a.sessionMap := hc sid b hb
    have hsome : (a.sessionMap.lookup b).isSome := AList.lookup_isSome.mpr hmem
    obtain ⟨s, hs⟩ := Option.isSome_iff_exists.mp hsome
    have hid : s.ID = b := ho b s hs
    refine ⟨s, hs, ?_, ?_⟩
    · show a.sessionMap.lookup s.ID = some s
      rw [hid]
      exact hs
    · show a.f2bMap.lookup sid = some s.ID
      rw [hid]
      exact hb
  · rw [Session_alloc a sid newID hall]
    refine ⟨NewSession a.id newID, rfl, ?_, ?_⟩
    · exact AList.lookup_insert _
    · exact AList.lookup_insert _

end Starx
